import Mathlib

/-!
Verification development for the post-bank content application
(`src/src/App.tsx`): the data model, the Dexie-backed store operations,
the bulk-generation orchestrator `handleBulkGenerate`, and the reminder
scheduler, shallowly embedded as executable Lean definitions.
-/

namespace PostBank

/-- The `Post` record as persisted in the `posts` table (App.tsx 42-51).
`id` is `none` before the store assigns an auto-increment key. -/
structure Post where
  id : Option Nat
  title : String
  content : String
  thumbnail_url : String
  thumbnail_prompt : Option String
  style : String
  virality_score : Int
  created_at : Int
  deriving Repr, DecidableEq

/-- The `Reminder` record as persisted in the `reminders` table (App.tsx 53-59). -/
structure Reminder where
  id : Option Nat
  postId : Nat
  postTitle : String
  time : Int
  notified : Bool
  deriving Repr, DecidableEq

/-- State of the `PostBankDB` Dexie database: the two tables plus the
auto-increment counters (Dexie `++id` primary keys start at 1). -/
structure DB where
  posts : List Post
  reminders : List Reminder
  nextPostId : Nat
  nextReminderId : Nat
  deriving Repr, DecidableEq

def emptyDB : DB :=
  { posts := [], reminders := [], nextPostId := 1, nextReminderId := 1 }

/-- Assign consecutive auto-increment ids starting at `n`, as Dexie does
for a `bulkAdd` of records without explicit keys. -/
def assignPostIds (n : Nat) : List Post → List Post
  | [] => []
  | p :: rest => { p with id := some n } :: assignPostIds (n + 1) rest

/-- Embedding of `db.posts.bulkAdd(newPosts)`: ordered group insert with auto ids. -/
def bulkAddPosts (db : DB) (ps : List Post) : DB :=
  { db with
    posts := db.posts ++ assignPostIds db.nextPostId ps,
    nextPostId := db.nextPostId + ps.length }

/-- Embedding of `db.reminders.add({...})` (App.tsx 440-445). -/
def addReminder (db : DB) (r : Reminder) : DB :=
  { db with
    reminders := db.reminders ++ [{ r with id := some db.nextReminderId }],
    nextReminderId := db.nextReminderId + 1 }

/-- Outcome of a store-backed handler, distinguishing a resolved promise
from a hypothetical NotFound rejection.  Dexie never raises NotFound for
`Table.update` / `Table.delete` on an absent primary key: `update`
resolves with 0 modified records and `delete` resolves void. -/
inductive DbOutcome (α : Type) where
  | resolved (a : α)
  | rejectedNotFound
  deriving Repr, DecidableEq

/-- Embedding of `db.posts.delete(id)`: removes the record with primary key `id` when
present; resolves whether or not the key exists. -/
def tableDeletePost (db : DB) (id : Nat) : DB :=
  { db with posts := db.posts.filter (fun p => decide (p.id ≠ some id)) }

/-- Embedding of `db.posts.update(id, ...)` restricted to the fields `handleSaveEdit`
writes: modifies the keyed record when present and resolves with the
count of modified records (0 when the key is absent; no rejection). -/
def tableUpdatePost (db : DB) (id : Nat) (newTitle newContent : String) :
    DB × Nat :=
  ({ db with
      posts := db.posts.map (fun p =>
        if p.id = some id then
          { p with title := newTitle, content := newContent }
        else p) },
   (db.posts.filter (fun p => decide (p.id = some id))).length)

/-- Embedding of `handleDelete` (App.tsx 318-322): `if (!id || !confirm(...)) return;`
— a missing id, the JS-falsy id 0 (unreachable for store-assigned keys,
which start at 1), or a declined confirm dialog all early-return; the
reminders table is never touched. -/
def handleDelete (db : DB) (confirmDelete : Bool) (id : Option Nat) :
    DbOutcome DB :=
  match id with
  | none => .resolved db
  | some i =>
    if i = 0 then .resolved db
    else if confirmDelete then .resolved (tableDeletePost db i)
    else .resolved db

/-- Embedding of `handleSaveEdit` (App.tsx 366-382): guards on a selected post id
(`selectedId = 0` models the JS-falsy early return, again unreachable for
store keys), then updates title and content via `db.posts.update`; the
catch branch only logs, and Dexie does not reject for an absent key, so
the promise always resolves. -/
def handleSaveEdit (db : DB) (selectedId : Nat)
    (editedTitle editedContent : String) : DbOutcome (DB × Nat) :=
  if selectedId = 0 then .resolved (db, 0)
  else .resolved (tableUpdatePost db selectedId editedTitle editedContent)

/-- The two seed posts written when the store is empty (App.tsx 237-262),
stamped relative to `now = Date.now()`. -/
def seedPosts (now : Int) : List Post :=
  [ { id := none,
      title := "The 2026 \x27Digital CEO\x27 Manifesto",
      content := "2025 is almost in the rearview mirror. Some of you spent this year \x27getting ready.\x27 You \x27planned\x27 to start. You \x27intended\x27 to learn AI. You \x27hoped\x27 to find clients. Hope is not a business strategy...",
      thumbnail_url := "https://picsum.photos/seed/ceo/800/450",
      thumbnail_prompt := none,
      style := "ceo",
      virality_score := 95,
      created_at := now - 10000 },
    { id := none,
      title := "The Death of the \x27Commodity\x27 Freelancer",
      content := "In 2025, you could still survive by being \x27the guy who does everything.\x27 Web design? You do it. Graphics? You do it. Data entry? You do it. But in 2026, the \x27Generalist\x27 is going to starve...",
      thumbnail_url := "https://picsum.photos/seed/specialist/800/450",
      thumbnail_prompt := none,
      style := "ceo",
      virality_score := 92,
      created_at := now - 20000 } ]

/-- The seeding effect (App.tsx 237-262): bulkAdd the samples only when
the posts table is empty. -/
def seedIfEmpty (db : DB) (now : Int) : DB :=
  if db.posts.isEmpty then bulkAddPosts db (seedPosts now) else db

/-! ## Reminder scheduler (App.tsx 86-99, 218-234) -/

/-- A dispatched notification: either a fire-and-forget Notification-API
notification (`displayed` records whether the OS actually showed it, an
outcome the program never observes) or the `alert` fallback. -/
inductive NotifEvent where
  | osNotification (title body : String) (displayed : Bool)
  | alertFallback (message : String)
  deriving Repr, DecidableEq

/-- Embedding of `sendNotification` (App.tsx 93-99).  `granted` models
`Notification.permission === "granted"`. -/
def sendNotification (granted displayed : Bool) (title body : String) :
    NotifEvent :=
  if granted then .osNotification title body displayed
  else .alertFallback ("REMINDER: " ++ title ++ "\n" ++ body)

/-- The tick query `db.reminders.where("time").belowOrEqual(now).and(r =>
!r.notified).toArray()` (App.tsx 221-225). -/
def dueReminders (db : DB) (now : Int) : List Reminder :=
  db.reminders.filter (fun r => decide (r.time ≤ now) && !r.notified)

/-- Embedding of `db.reminders.update(r.id!, { notified: true })` (App.tsx 229). -/
def setNotifiedById (db : DB) (i : Option Nat) : DB :=
  { db with
    reminders := db.reminders.map (fun r =>
      if r.id = i then { r with notified := true } else r) }

/-- The per-reminder loop body of the tick: dispatch the notification,
then mark the reminder notified.  `k` indexes the display oracle. -/
def fireAll (granted : Bool) (displayOracle : Nat → Bool) :
    List Reminder → Nat → DB → DB × List NotifEvent
  | [], _, db => (db, [])
  | r :: rest, k, db =>
    let ev := sendNotification granted (displayOracle k) "Post Reminder"
      ("Time to share: " ++ r.postTitle)
    let step := fireAll granted displayOracle rest (k + 1)
      (setNotifiedById db r.id)
    (step.1, ev :: step.2)

/-- One tick of the reminder-checker interval (App.tsx 218-234): the due
list is materialised first (`toArray`), then every qualifying reminder is
processed within the same tick. -/
def reminderTick (granted : Bool) (displayOracle : Nat → Bool) (db : DB)
    (now : Int) : DB × List NotifEvent :=
  fireAll granted displayOracle (dueReminders db now) 0 db

/-- What one tick does to a single stored reminder record. -/
def tickMap (now : Int) (x : Reminder) : Reminder :=
  if x.time ≤ now ∧ x.notified = false then { x with notified := true }
  else x

/-! ## Bulk-generation orchestrator (App.tsx 107-179, 264-316) -/

/-- One draft of the structured output of the text service. -/
structure Draft where
  title : String
  content : String
  virality_score : Int
  deriving Repr, DecidableEq

/-- Abstraction of the text-service response body as consumed by
`generatePostsBulk` (App.tsx 141-148), keyed by how
`JSON.parse(response.text || "...")` followed by `data.posts` behaves:
* `malformedJson` — `JSON.parse` throws, the catch returns `[]`;
* `jsonNull` — parses to `null`, so the `data.posts` access throws a
  TypeError inside the same try and the catch also returns `[]`;
* `objNoPosts` — parses to an object with no `posts` array (this is also
  what an empty `response.text` yields, via the `"..."` default object):
  `data.posts` is `undefined`, which the function returns as-is;
* `objPosts ds` — parses to an object whose `posts` is an array of
  drafts. -/
inductive TextResp where
  | malformedJson
  | jsonNull
  | objNoPosts
  | objPosts (ds : List Draft)
  deriving Repr, DecidableEq

/-- The parse stage of `generatePostsBulk` (App.tsx 141-148); `none`
models the JS value `undefined` that the function returns when the parsed
object has no `posts` field. -/
def generatePostsBulk : TextResp → Option (List Draft)
  | .malformedJson => some []
  | .jsonNull => some []
  | .objNoPosts => none
  | .objPosts ds => some ds

/-- Environment of external effects consumed by one bulk-generation run:
per chunk index `i`, the outcome of the text-service call; per
`(chunk, draft-index)`, the outcome of `generateThumbnail` (App.tsx
150-179, returning the image url and the prompt actually used), the
`Math.random()` draw used for the eagerly computed fallback picsum seed
(App.tsx 282), and the `Date.now()` reading at stamping time
(App.tsx 299). -/
structure GenEnv where
  generateContent : Nat → Except Unit TextResp
  generateThumbnail : Nat → Nat → Except Unit (String × String)
  mathRandom : Nat → Nat → String
  dateNow : Nat → Nat → Int

/-- Build one `Post` from a draft inside the inner loop of
`handleBulkGenerate` (App.tsx 279-300): the fallback picsum url seeded by `Math.random()`
and the empty prompt are the initial values, replaced only when
`generateThumbnail` succeeds; `created_at = Date.now() - (i*5 + j)`. -/
def draftToPost (env : GenEnv) (style : String) (i j : Nat) (d : Draft) :
    Post :=
  match env.generateThumbnail i j with
  | .ok tr =>
    { id := none, title := d.title, content := d.content,
      thumbnail_url := tr.1, thumbnail_prompt := some tr.2,
      style := style, virality_score := d.virality_score,
      created_at := env.dateNow i j - Int.ofNat (i * 5 + j) }
  | .error _ =>
    { id := none, title := d.title, content := d.content,
      thumbnail_url :=
        "https://picsum.photos/seed/" ++ env.mathRandom i j ++ "/800/450",
      thumbnail_prompt := some "",
      style := style, virality_score := d.virality_score,
      created_at := env.dateNow i j - Int.ofNat (i * 5 + j) }

/-- The `for (let j = 0; j < generated.length; j++)` loop of one chunk. -/
def buildPosts (env : GenEnv) (style : String) (i : Nat) :
    Nat → List Draft → List Post
  | _, [] => []
  | j, d :: rest => draftToPost env style i j d :: buildPosts env style i (j + 1) rest

/-- Embedding of `Math.ceil(totalToGen / chunkSize)` with `chunkSize = 5`
(App.tsx 270-271). -/
def iterationsFor (count : Nat) : Nat := (count + 4) / 5

/-- Embedding of `Math.min(chunkSize, totalToGen - i * chunkSize)` for each iteration
index (App.tsx 275): the sizes of the chunks requested from the text
service. -/
def chunkSizes (count : Nat) : List Nat :=
  (List.range (iterationsFor count)).map (fun i => min 5 (count - i * 5))

/-- Embedding of `Math.round(((i + 1) / iterations) * 100)` (App.tsx 304), embedded as
the exact round-half-up of `100 * k / n`, i.e. `⌊(200k + n) / (2n)⌋`
(JS numbers are modelled as exact rationals here; for `n ≤ 200` the
double-precision evaluation agrees with the exact rounding except on
ties, which JS also rounds upward). -/
def progressAt (k n : Nat) : Nat := (200 * k + n) / (2 * n)

/-- The observable outcome of `handleBulkGenerate`: `success` is the
normal exit, `aborted` is the catch branch (which issues exactly one
aggregate `alert`), `skipped` is the `!genConfig.topic` early return.
`reports` collects the `setProgress` values issued after each completed
chunk (the initial `setProgress(0)` and the `finally` reset are UI
bookkeeping, not chunk-completion reports). -/
inductive RunOutcome where
  | success (db : DB) (reports : List Nat)
  | aborted (db : DB) (reports : List Nat)
  | skipped (db : DB)
  deriving Repr, DecidableEq

def RunOutcome.finalDb : RunOutcome → DB
  | .success db _ => db
  | .aborted db _ => db
  | .skipped db => db

def RunOutcome.reports : RunOutcome → List Nat
  | .success _ rs => rs
  | .aborted _ rs => rs
  | .skipped _ => []

def RunOutcome.isAborted : RunOutcome → Bool
  | .aborted _ _ => true
  | _ => false

/-- The `for (let i = 0; i < iterations; i++)` loop of
`handleBulkGenerate` (App.tsx 274-305), with `fuel = iterations - i`.
A failed text call (`Except.error`) throws into the catch branch; so does
the `generated.length` TypeError when `generatePostsBulk` returned the
JS `undefined` (`none`).  A parsed draft list is mapped to posts, batch
written via `bulkAdd`, and the progress report appended. -/
def runLoop (env : GenEnv) (style : String) (n : Nat) :
    Nat → Nat → DB → List Nat → RunOutcome
  | 0, _, db, reports => .success db reports
  | fuel + 1, i, db, reports =>
    match env.generateContent i with
    | .error _ => .aborted db reports
    | .ok resp =>
      match generatePostsBulk resp with
      | none => .aborted db reports
      | some ds =>
        runLoop env style n fuel (i + 1)
          (bulkAddPosts db (buildPosts env style i 0 ds))
          (reports ++ [progressAt (i + 1) n])

/-- Embedding of `handleBulkGenerate` (App.tsx 264-316). -/
def handleBulkGenerate (env : GenEnv) (topic style : String) (count : Nat)
    (db : DB) : RunOutcome :=
  if topic = "" then .skipped db
  else runLoop env style (iterationsFor count) (iterationsFor count) 0 db []

/-- The posts one chunk contributes (empty when the text call of the chunk
fails or parses to the JS `undefined`, in which cases the loop aborts
before writing). -/
def runChunkPosts (env : GenEnv) (style : String) (i : Nat) : List Post :=
  match env.generateContent i with
  | .error _ => []
  | .ok resp =>
    match generatePostsBulk resp with
    | none => []
    | some ds => buildPosts env style i 0 ds

/-- The store state after persisting chunks `i, i+1, ..., i+n-1` in
order. -/
def persistRange (env : GenEnv) (style : String) :
    Nat → Nat → DB → DB
  | _, 0, db => db
  | i, n + 1, db =>
    persistRange env style (i + 1) n
      (bulkAddPosts db (runChunkPosts env style i))

/-- A chunk whose text call succeeds and whose response yields an actual
draft list (possibly empty) rather than the JS `undefined`. -/
def ChunkOk (env : GenEnv) (i : Nat) : Prop :=
  ∃ resp ds, env.generateContent i = .ok resp ∧ generatePostsBulk resp = some ds

/-- Two environments that agree on every external outcome the run can
observe before and including chunk `N`. -/
def AgreeUpTo (env env2 : GenEnv) (N : Nat) : Prop :=
  (∀ i, i ≤ N → env.generateContent i = env2.generateContent i) ∧
  (∀ i, i < N → ∀ j,
    env.generateThumbnail i j = env2.generateThumbnail i j ∧
    env.mathRandom i j = env2.mathRandom i j ∧
    env.dateNow i j = env2.dateNow i j)

/-- Range check `[0,100]` on the virality score of one post. -/
def scoreOk (p : Post) : Bool :=
  decide (0 ≤ p.virality_score) && decide (p.virality_score ≤ 100)

/-- Range check `[0,100]` on the virality score of every persisted post. -/
def viralityOk (db : DB) : Bool :=
  db.posts.all scoreOk

/-- Every draft list the text service can hand to this run has scores in
`[0,100]`. -/
def draftsInRange (env : GenEnv) : Prop :=
  ∀ i ds, env.generateContent i = .ok (.objPosts ds) →
    ∀ d ∈ ds, 0 ≤ d.virality_score ∧ d.virality_score ≤ 100

/-! ## Concrete fixtures used in witnesses and counterexamples -/

/-- Constant oracles naming the external notification conditions, used in
closed witness statements. -/
def oracleTrue : Nat → Bool := fun _ => true

def oracleFalse : Nat → Bool := fun _ => false

/-- Concrete store for the C2 witness: one pending reminder due at 100. -/
def dbC2 : DB :=
  { posts := [],
    reminders := [
      { id := some 1, postId := 1, postTitle := "Launch", time := 100,
        notified := false } ],
    nextPostId := 1, nextReminderId := 2 }

def rC2 : Reminder :=
  { id := some 1, postId := 1, postTitle := "Launch", time := 100,
    notified := false }

/-- Concrete store for C9: a single post with id 1; 99 is absent. -/
def dbC9 : DB :=
  { posts := [
      { id := some 1, title := "A", content := "B", thumbnail_url := "u",
        thumbnail_prompt := none, style := "ceo", virality_score := 50,
        created_at := 0 } ],
    reminders := [], nextPostId := 2, nextReminderId := 1 }

/-- Concrete store for the C10 witness: post 1 and a reminder holding a
title snapshot of it. -/
def dbC10 : DB :=
  { posts := [
      { id := some 1, title := "Manifesto", content := "c",
        thumbnail_url := "u", thumbnail_prompt := none, style := "ceo",
        virality_score := 80, created_at := 5 } ],
    reminders := [
      { id := some 1, postId := 1, postTitle := "Manifesto", time := 50,
        notified := false } ],
    nextPostId := 2, nextReminderId := 2 }

def pC10 : Post :=
  { id := some 1, title := "Manifesto", content := "c",
    thumbnail_url := "u", thumbnail_prompt := none, style := "ceo",
    virality_score := 80, created_at := 5 }

def rC10 : Reminder :=
  { id := some 1, postId := 1, postTitle := "Manifesto", time := 50,
    notified := false }

/-- Fixed drafts used by the concrete generation environments. -/
def draftW : Draft :=
  { title := "T", content := "C", virality_score := 60 }

def draftW2 : Draft :=
  { title := "T2", content := "C2", virality_score := 70 }

/-- A draft whose score escapes `[0,100]`, as the text service may
return. -/
def draft150 : Draft :=
  { title := "Over", content := "scored", virality_score := 150 }

/-- Witness environment for C8: every chunk answers with one fixed
draft. -/
def envW8 : GenEnv :=
  { generateContent := fun _ => .ok (.objPosts [draftW]),
    generateThumbnail := fun _ _ => .ok ("https://img/ok", "prompt"),
    mathRandom := fun _ _ => "0.4",
    dateNow := fun _ _ => 1700000000000 }

/-- Witness environment for C3: chunk 0 succeeds, chunk 1 fails. -/
def envW3 : GenEnv :=
  { generateContent := fun i =>
      if i = 0 then .ok (.objPosts [draftW]) else .error (),
    generateThumbnail := fun _ _ => .ok ("https://img/ok", "p"),
    mathRandom := fun _ _ => "0.3",
    dateNow := fun _ _ => 1000 }

/-- A second C3 environment agreeing with `envW3` up to chunk 1 but
differing beyond the failure point. -/
def envW3b : GenEnv :=
  { envW3 with
    generateContent := fun i =>
      if i ≤ 1 then envW3.generateContent i else .ok (.objPosts []) }

/-- C4 counterexample environment: chunk 0 parses to an object without a
`posts` array; chunk 1 would succeed if it were ever attempted. -/
def envC4 : GenEnv :=
  { generateContent := fun i =>
      if i = 0 then .ok .objNoPosts else .ok (.objPosts [draftW]),
    generateThumbnail := fun _ _ => .ok ("https://img/ok", "p"),
    mathRandom := fun _ _ => "0.5",
    dateNow := fun _ _ => 1000 }

/-- C4 witness environment: chunk 0 is malformed JSON. -/
def envW4 : GenEnv :=
  { generateContent := fun i =>
      if i = 0 then .ok .malformedJson else .ok (.objPosts [draftW]),
    generateThumbnail := fun _ _ => .ok ("https://img/ok", "p"),
    mathRandom := fun _ _ => "0.5",
    dateNow := fun _ _ => 1000 }

/-- C5 environment: one chunk of two drafts, every thumbnail call fails,
and the two `Math.random()` draws differ. -/
def envC5 : GenEnv :=
  { generateContent := fun _ => .ok (.objPosts [draftW, draftW2]),
    generateThumbnail := fun _ _ => .error (),
    mathRandom := fun _ j => if j = 0 then "0.12" else "0.87",
    dateNow := fun _ _ => 1000 }

/-- C6 environment: one chunk of two drafts where `Date.now()` advances
by 2 ms between the two draft stampings (as it does across the awaited
thumbnail calls). -/
def envC6 : GenEnv :=
  { generateContent := fun _ => .ok (.objPosts [draftW, draftW2]),
    generateThumbnail := fun _ _ => .ok ("https://img/ok", "p"),
    mathRandom := fun _ _ => "0.5",
    dateNow := fun _ j => 1000 + 2 * (j : Int) }

/-- C1 counterexample environment: the text service returns a draft with
score 150. -/
def envC1 : GenEnv :=
  { generateContent := fun _ => .ok (.objPosts [draft150]),
    generateThumbnail := fun _ _ => .ok ("https://img/ok", "p"),
    mathRandom := fun _ _ => "0.5",
    dateNow := fun _ _ => 1000 }

/-- C1 witness environment: every draft scored inside `[0,100]`. -/
def envW1 : GenEnv :=
  { generateContent := fun _ => .ok (.objPosts [draftW]),
    generateThumbnail := fun _ _ => .ok ("https://img/ok", "p"),
    mathRandom := fun _ _ => "0.5",
    dateNow := fun _ _ => 1000 }

/-! ## Scheduler lemmas -/

theorem fireAll_fst (g : Bool) (dO : Nat → Bool) :
    ∀ (l : List Reminder) (k : Nat) (db : DB),
      (fireAll g dO l k db).1 = l.foldl (fun d r => setNotifiedById d r.id) db
  | [], _, _ => rfl
  | r :: rest, k, db => by
    simp only [fireAll, List.foldl_cons]
    exact fireAll_fst g dO rest (k + 1) (setNotifiedById db r.id)

theorem fireAll_snd_length (g : Bool) (dO : Nat → Bool) :
    ∀ (l : List Reminder) (k : Nat) (db : DB),
      (fireAll g dO l k db).2.length = l.length
  | [], _, _ => rfl
  | r :: rest, k, db => by
    simp only [fireAll, List.length_cons]
    rw [fireAll_snd_length g dO rest (k + 1) (setNotifiedById db r.id)]

theorem foldl_setNotified :
    ∀ (l : List Reminder) (db : DB),
      l.foldl (fun d r => setNotifiedById d r.id) db =
        { db with
          reminders := db.reminders.map (fun x =>
            if x.id ∈ l.map Reminder.id then { x with notified := true }
            else x) }
  | [], db => by
    simp [List.map_id']
  | r :: rest, db => by
    rw [List.foldl_cons, foldl_setNotified rest (setNotifiedById db r.id)]
    simp only [setNotifiedById, List.map_map, List.map_cons]
    congr 1
    apply List.map_congr_left
    intro x _
    simp only [Function.comp_apply, List.mem_cons]
    by_cases hx : x.id = r.id
    · rw [if_pos hx, if_pos (Or.inl hx)]
      split <;> rfl
    · rw [if_neg hx]
      by_cases hm : x.id ∈ rest.map Reminder.id
      · rw [if_pos hm, if_pos (Or.inr hm)]
      · rw [if_neg hm, if_neg (by tauto)]

theorem mem_dueReminders (db : DB) (now : Int) (x : Reminder) :
    x ∈ dueReminders db now ↔
      x ∈ db.reminders ∧ x.time ≤ now ∧ x.notified = false := by
  simp [dueReminders, List.mem_filter, and_assoc]

theorem reminderTick_fst (g : Bool) (dO : Nat → Bool) (db : DB) (now : Int)
    (h : (db.reminders.map Reminder.id).Nodup) :
    (reminderTick g dO db now).1 =
      { db with reminders := db.reminders.map (tickMap now) } := by
  rw [reminderTick, fireAll_fst, foldl_setNotified]
  congr 1
  apply List.map_congr_left
  intro x hx
  by_cases hdue : x.time ≤ now ∧ x.notified = false
  · have hxdue : x ∈ dueReminders db now :=
      (mem_dueReminders db now x).mpr ⟨hx, hdue⟩
    rw [if_pos (List.mem_map.mpr ⟨x, hxdue, rfl⟩), tickMap, if_pos hdue]
  · rw [tickMap, if_neg hdue, if_neg]
    intro hmem
    obtain ⟨y, hy, hyid⟩ := List.mem_map.mp hmem
    have hy' : y ∈ db.reminders := List.mem_of_mem_filter hy
    have heq : y = x := List.inj_on_of_nodup_map h hy' hx hyid
    subst heq
    exact hdue ((mem_dueReminders db now y).mp hy).2

theorem tickMap_preserves_id (now : Int) (x : Reminder) :
    (tickMap now x).id = x.id := by
  rw [tickMap]; split <;> rfl

theorem tick_preserves_ids (db : DB) (now : Int) :
    (db.reminders.map (tickMap now)).map Reminder.id =
      db.reminders.map Reminder.id := by
  rw [List.map_map]
  exact List.map_congr_left (fun x _ => tickMap_preserves_id now x)

/-! ## Claim C2: at-most-once reminder delivery -/

/-- C2: a reminder with `dueTime ≤ now` and `notified = false` is
delivered exactly once on the tick that picks it up (its notification is
dispatched once, with one event per due reminder); the `notified` flag is
set to `true` on that tick with no other field change, and the resulting
store state is identical whatever the notification permission and the
unobserved display outcome are (delivery failure does not block the
transition); on any subsequent tick the fired reminder is not queried as
due, receives no further delivery attempt, and no field changes. -/
theorem c2_reminder_delivered_exactly_once
    (db : DB) (now now2 : Int) (g g2 : Bool) (dO dO2 : Nat → Bool)
    (r : Reminder)
    (hnodup : (db.reminders.map Reminder.id).Nodup)
    (hmem : r ∈ db.reminders) (hdue : r.time ≤ now)
    (hnot : r.notified = false) :
    ((dueReminders db now).count r = 1 ∧
      (reminderTick g dO db now).2.length = (dueReminders db now).length) ∧
    ({ r with notified := true } ∈ (reminderTick g dO db now).1.reminders ∧
      (reminderTick g dO db now).1 = (reminderTick g2 dO2 db now).1) ∧
    ({ r with notified := true } ∉
        dueReminders (reminderTick g dO db now).1 now2 ∧
      { r with notified := true } ∈
        (reminderTick g2 dO2 (reminderTick g dO db now).1 now2).1.reminders) := by
  have hrdue : r ∈ dueReminders db now :=
    (mem_dueReminders db now r).mpr ⟨hmem, hdue, hnot⟩
  have hfst := reminderTick_fst g dO db now hnodup
  have htickr : tickMap now r = { r with notified := true } := by
    rw [tickMap, if_pos ⟨hdue, hnot⟩]
  refine ⟨⟨?_, ?_⟩, ⟨?_, ?_⟩, ?_, ?_⟩
  · exact List.count_eq_one_of_mem
      ((List.Nodup.of_map _ hnodup).filter _) hrdue
  · rw [reminderTick]; exact fireAll_snd_length g dO _ 0 db
  · rw [hfst]
    exact List.mem_map.mpr ⟨r, hmem, htickr⟩
  · rw [hfst, reminderTick_fst g2 dO2 db now hnodup]
  · rw [hfst]
    intro hin
    have := ((mem_dueReminders _ now2 _).mp hin).2.2
    simp at this
  · have hnodup1 : ((reminderTick g dO db now).1.reminders.map Reminder.id).Nodup := by
      rw [hfst]
      show ((db.reminders.map (tickMap now)).map Reminder.id).Nodup
      rw [tick_preserves_ids]
      exact hnodup
    rw [reminderTick_fst g2 dO2 _ now2 hnodup1, hfst]
    refine List.mem_map.mpr ⟨{ r with notified := true }, ?_, ?_⟩
    · exact List.mem_map.mpr ⟨r, hmem, htickr⟩
    · rw [tickMap, if_neg]
      intro hc
      simpa using hc.2

/-- Witness for C2 at a concrete store, time 200 and re-tick at 300,
with differing permission/display outcomes across the two ticks. -/
theorem c2_witness :
    ((dueReminders dbC2 200).count rC2 = 1 ∧
      (reminderTick true oracleTrue dbC2 200).2.length =
        (dueReminders dbC2 200).length) ∧
    ({ rC2 with notified := true } ∈
        (reminderTick true oracleTrue dbC2 200).1.reminders ∧
      (reminderTick true oracleTrue dbC2 200).1 =
        (reminderTick false oracleFalse dbC2 200).1) ∧
    ({ rC2 with notified := true } ∉
        dueReminders (reminderTick true oracleTrue dbC2 200).1 300 ∧
      { rC2 with notified := true } ∈
        (reminderTick false oracleFalse
          (reminderTick true oracleTrue dbC2 200).1 300).1.reminders) :=
  c2_reminder_delivered_exactly_once dbC2 200 300 true false oracleTrue
    oracleFalse rC2 (by decide) (by decide) (by decide) rfl

/-! ## Claim C9: update/delete on a nonexistent id -/

/-- C9 counterexample: deleting and updating the absent id 99 both
resolve as silent no-ops — neither operation produces a NotFound
failure, contradicting the claim that each fails with a distinct
NotFound condition and is never a silent no-op. -/
theorem c9_counterexample :
    handleDelete dbC9 true (some 99) = DbOutcome.resolved dbC9 ∧
    handleDelete dbC9 true (some 99) ≠ DbOutcome.rejectedNotFound ∧
    handleSaveEdit dbC9 99 "t" "c" = DbOutcome.resolved (dbC9, 0) ∧
    handleSaveEdit dbC9 99 "t" "c" ≠ DbOutcome.rejectedNotFound := by
  refine ⟨?_, ?_, ?_, ?_⟩ <;> decide

/-- C9 amended: on an id not present in the store, `handleDelete`
resolves with the store unchanged and `handleSaveEdit` resolves with the
store unchanged and an update count of 0; neither raises any failure
(Dexie semantics: `Table.delete` resolves void and `Table.update`
resolves with 0 for an absent key). -/
theorem c9_amended (db : DB) (id : Nat) (t c : String)
    (hid : ∀ p ∈ db.posts, p.id ≠ some id) :
    handleDelete db true (some id) = DbOutcome.resolved db ∧
    handleSaveEdit db id t c = DbOutcome.resolved (db, 0) := by
  by_cases h0 : id = 0
  · subst h0
    exact ⟨rfl, rfl⟩
  · constructor
    · have hfilter :
          db.posts.filter (fun p => !decide (p.id = some id)) = db.posts :=
        List.filter_eq_self.mpr (fun a ha => by
          simpa using hid a ha)
      simp [handleDelete, h0, tableDeletePost, hfilter]
    · have hmap :
          db.posts.map (fun p =>
            if p.id = some id then { p with title := t, content := c }
            else p) = db.posts := by
        rw [List.map_congr_left (fun a ha => if_neg (hid a ha)),
          List.map_id']
      have hcount :
          db.posts.filter (fun p => decide (p.id = some id)) = [] :=
        List.filter_eq_nil_iff.mpr (fun a ha => by
          simpa using hid a ha)
      simp [handleSaveEdit, h0, tableUpdatePost, hmap, hcount]

/-- Witness for the amended C9 at a concrete store and absent id. -/
theorem c9_amended_witness :
    handleDelete dbC9 true (some 7) = DbOutcome.resolved dbC9 ∧
    handleSaveEdit dbC9 7 "x" "y" = DbOutcome.resolved (dbC9, 0) :=
  c9_amended dbC9 7 "x" "y" (by decide)

/-! ## Claim C10: deleting a post leaves its reminders untouched -/

/-- C10: deleting a post that a reminder references leaves the reminders
table — and hence every field of the referencing reminder — unchanged,
while the post itself is gone; the reminder still answers its own
queries (the due-reminder range query gives the same result set). -/
theorem c10_delete_orphans_reminder
    (db : DB) (pid : Nat) (P : Post) (r : Reminder) (now : Int)
    (_hP : P ∈ db.posts) (_hPid : P.id = some pid) (hpid : pid ≠ 0)
    (hr : r ∈ db.reminders) (_href : r.postId = pid) :
    handleDelete db true (some pid) =
        DbOutcome.resolved (tableDeletePost db pid) ∧
    (tableDeletePost db pid).reminders = db.reminders ∧
    r ∈ (tableDeletePost db pid).reminders ∧
    (∀ q ∈ (tableDeletePost db pid).posts, q.id ≠ some pid) ∧
    dueReminders (tableDeletePost db pid) now = dueReminders db now := by
  refine ⟨?_, rfl, hr, ?_, rfl⟩
  · simp [handleDelete, hpid]
  · intro q hq
    simpa using List.of_mem_filter hq

/-! ## Claim C7: chunk splitting -/

/-- C7: for a requested count `C` in `[1,1000]`, the orchestrator
performs exactly `⌈C/5⌉` iterations — `iterationsFor C = (C+4)/5` is the
natural-number ceiling — and the requested chunk sizes are 5 for every
iteration except the last, which is `C mod 5` when `C` is not a multiple
of 5 (and 5 otherwise). -/
theorem c7_chunking (C : Nat) (_h1 : 1 ≤ C) (_h2 : C ≤ 1000) :
    (chunkSizes C).length = iterationsFor C ∧
    iterationsFor C = (C + 4) / 5 ∧
    ∀ i (hi : i < (chunkSizes C).length),
      (chunkSizes C).get ⟨i, hi⟩ =
        if i + 1 < iterationsFor C then 5
        else if C % 5 = 0 then 5 else C % 5 := by
  refine ⟨by simp [chunkSizes], rfl, ?_⟩
  intro i hi
  have hi' : i < iterationsFor C := by
    simpa [chunkSizes] using hi
  have hval : (chunkSizes C).get ⟨i, hi⟩ = min 5 (C - i * 5) := by
    simp [chunkSizes]
  rw [hval]
  unfold iterationsFor at hi' ⊢
  split_ifs <;> omega

/-- Witness for C7 at `C = 12`: 3 iterations with sizes `[5, 5, 2]`. -/
theorem c7_witness :
    (chunkSizes 12).length = iterationsFor 12 ∧
    iterationsFor 12 = (12 + 4) / 5 ∧
    chunkSizes 12 = [5, 5, 2] :=
  ⟨(c7_chunking 12 (by decide) (by decide)).1,
   (c7_chunking 12 (by decide) (by decide)).2.1, by decide⟩

/-! ## Claim C8: progress reporting -/

theorem progressAt_mono (n k1 k2 : Nat) (h : k1 ≤ k2) :
    progressAt k1 n ≤ progressAt k2 n :=
  Nat.div_le_div_right (by omega)

theorem progressAt_self (n : Nat) (hn : 1 ≤ n) : progressAt n n = 100 := by
  unfold progressAt
  have h : 200 * n + n = n + (2 * n) * 100 := by ring
  rw [h, Nat.add_mul_div_left _ _ (by omega : 0 < 2 * n),
    Nat.div_eq_of_lt (by omega)]

/-- When every chunk in the window `[i, i + fuel)` yields a draft list,
the loop runs to completion and appends one progress report per chunk. -/
theorem runLoop_success (env : GenEnv) (style : String) (n : Nat) :
    ∀ (fuel i : Nat) (db : DB) (reports : List Nat),
      (∀ j, i ≤ j → j < i + fuel → ChunkOk env j) →
      ∃ db2, runLoop env style n fuel i db reports =
        .success db2
          (reports ++ (List.range fuel).map (fun m => progressAt (i + m + 1) n))
  | 0, i, db, reports, _ => ⟨db, by simp [runLoop]⟩
  | fuel + 1, i, db, reports, hok => by
    obtain ⟨resp, ds, hresp, hparse⟩ := hok i (le_refl i) (by omega)
    obtain ⟨db2, hdb2⟩ := runLoop_success env style n fuel (i + 1)
      (bulkAddPosts db (buildPosts env style i 0 ds))
      (reports ++ [progressAt (i + 1) n])
      (fun j hj1 hj2 => hok j (by omega) (by omega))
    refine ⟨db2, ?_⟩
    simp only [runLoop]
    rw [hresp]
    simp only []
    rw [hparse]
    simp only []
    rw [hdb2]
    have hlist : (List.range (fuel + 1)).map (fun m => progressAt (i + m + 1) n)
        = progressAt (i + 1) n
          :: (List.range fuel).map (fun m => progressAt (i + 1 + m + 1) n) := by
      rw [List.range_succ_eq_map, List.map_cons, List.map_map]
      congr 1
      apply List.map_congr_left
      intro m _
      simp only [Function.comp_apply]
      congr 1
      omega
    rw [hlist, List.append_assoc, List.singleton_append]

/-- C8: when every iteration succeeds, the sequence of progress values
reported after each completed chunk is exactly
`round(100 * iterationsCompleted / iterations)`, is monotonically
non-decreasing, and ends at exactly 100. -/
theorem c8_progress (env : GenEnv) (topic style : String) (count : Nat)
    (db : DB) (htopic : topic ≠ "") (hcount : 1 ≤ count)
    (hok : ∀ i, i < iterationsFor count → ChunkOk env i) :
    (∃ db2, handleBulkGenerate env topic style count db =
      .success db2 ((List.range (iterationsFor count)).map
        (fun m => progressAt (m + 1) (iterationsFor count)))) ∧
    List.Pairwise (· ≤ ·) ((List.range (iterationsFor count)).map
      (fun m => progressAt (m + 1) (iterationsFor count))) ∧
    ((List.range (iterationsFor count)).map
      (fun m => progressAt (m + 1) (iterationsFor count))).getLast?
      = some 100 := by
  have hn : 1 ≤ iterationsFor count := by
    unfold iterationsFor; omega
  refine ⟨?_, ?_, ?_⟩
  · obtain ⟨db2, hdb2⟩ := runLoop_success env style (iterationsFor count)
      (iterationsFor count) 0 db [] (fun j hj1 hj2 => hok j (by omega))
    refine ⟨db2, ?_⟩
    rw [handleBulkGenerate, if_neg htopic, hdb2, List.nil_append]
    congr 1
    apply List.map_congr_left
    intro m _
    show progressAt (0 + m + 1) (iterationsFor count)
      = progressAt (m + 1) (iterationsFor count)
    congr 1
    omega
  · exact (List.sorted_le_range (iterationsFor count)).map _
      (fun a b hab => progressAt_mono (iterationsFor count) (a + 1) (b + 1)
        (by omega))
  · obtain ⟨m, hm⟩ : ∃ m, iterationsFor count = m + 1 :=
      ⟨iterationsFor count - 1, by omega⟩
    rw [hm, List.range_succ, List.map_append, List.map_cons, List.map_nil,
      List.getLast?_concat]
    rw [← hm, progressAt_self (iterationsFor count) hn]

/-- Witness for C8 at `count = 12` (3 iterations): the reported progress
sequence is `[33, 67, 100]`. -/
theorem c8_witness :
    (handleBulkGenerate envW8 "ai" "ceo" 12 emptyDB).reports
      = [33, 67, 100] := by
  obtain ⟨⟨db2, hdb2⟩, _, _⟩ :=
    c8_progress envW8 "ai" "ceo" 12 emptyDB (by decide) (by decide)
      (fun i _ => ⟨.objPosts [draftW], [draftW], rfl, rfl⟩)
  rw [hdb2]
  show (List.range (iterationsFor 12)).map
    (fun m => progressAt (m + 1) (iterationsFor 12)) = [33, 67, 100]
  decide

/-- Witness for C10 at a concrete store. -/
theorem c10_witness :
    handleDelete dbC10 true (some 1) =
        DbOutcome.resolved (tableDeletePost dbC10 1) ∧
    (tableDeletePost dbC10 1).reminders = dbC10.reminders ∧
    rC10 ∈ (tableDeletePost dbC10 1).reminders ∧
    dueReminders (tableDeletePost dbC10 1) 60 = dueReminders dbC10 60 := by
  obtain ⟨h1, h2, h3, _, h5⟩ :=
    c10_delete_orphans_reminder dbC10 1 pC10 rC10 60 (by decide) rfl
      (by decide) (by decide) rfl
  exact ⟨h1, h2, h3, h5⟩

/-! ## Orchestrator step lemmas -/

theorem runLoop_step_error (env : GenEnv) (style : String)
    (n fuel i : Nat) (db : DB) (reports : List Nat) (e : Unit)
    (h : env.generateContent i = .error e) :
    runLoop env style n (fuel + 1) i db reports = .aborted db reports := by
  simp only [runLoop, h]

theorem runLoop_step_undef (env : GenEnv) (style : String)
    (n fuel i : Nat) (db : DB) (reports : List Nat) (resp : TextResp)
    (h1 : env.generateContent i = .ok resp)
    (h2 : generatePostsBulk resp = none) :
    runLoop env style n (fuel + 1) i db reports = .aborted db reports := by
  simp only [runLoop, h1, h2]

theorem runLoop_step_ok (env : GenEnv) (style : String)
    (n fuel i : Nat) (db : DB) (reports : List Nat) (resp : TextResp)
    (ds : List Draft)
    (h1 : env.generateContent i = .ok resp)
    (h2 : generatePostsBulk resp = some ds) :
    runLoop env style n (fuel + 1) i db reports =
      runLoop env style n fuel (i + 1)
        (bulkAddPosts db (buildPosts env style i 0 ds))
        (reports ++ [progressAt (i + 1) n]) := by
  simp only [runLoop, h1, h2]

theorem range_map_progress (n i k : Nat) :
    (List.range (k + 1)).map (fun m => progressAt (i + m + 1) n)
      = progressAt (i + 1) n
        :: (List.range k).map (fun m => progressAt (i + 1 + m + 1) n) := by
  rw [List.range_succ_eq_map, List.map_cons, List.map_map]
  congr 1
  apply List.map_congr_left
  intro m _
  simp only [Function.comp_apply]
  congr 1
  omega

/-! ## Per-draft lemmas -/

theorem draftToPost_virality (env : GenEnv) (style : String) (i j : Nat)
    (d : Draft) :
    (draftToPost env style i j d).virality_score = d.virality_score := by
  unfold draftToPost
  split <;> rfl

theorem draftToPost_created_at (env : GenEnv) (style : String) (i j : Nat)
    (d : Draft) :
    (draftToPost env style i j d).created_at
      = env.dateNow i j - Int.ofNat (i * 5 + j) := by
  unfold draftToPost
  split <;> rfl

/-- The decreasing-offset intent of `created_at = Date.now() - (i*5 + j)`
does hold when the clock does not advance between the drafts of a
chunk. -/
theorem created_at_decreasing_of_constant_clock (env : GenEnv)
    (style : String) (i j : Nat) (c : Int)
    (hc : ∀ j2, env.dateNow i j2 = c) (d1 d2 : Draft) :
    (draftToPost env style i (j + 1) d2).created_at
      < (draftToPost env style i j d1).created_at := by
  rw [draftToPost_created_at, draftToPost_created_at, hc j, hc (j + 1)]
  have h1 : Int.ofNat (i * 5 + j) < Int.ofNat (i * 5 + (j + 1)) := by
    show ((i * 5 + j : Nat) : Int) < ((i * 5 + (j + 1) : Nat) : Int)
    have hn : i * 5 + j < i * 5 + (j + 1) := by omega
    exact_mod_cast hn
  omega

theorem buildPosts_length (env : GenEnv) (style : String) (i : Nat) :
    ∀ (j : Nat) (ds : List Draft),
      (buildPosts env style i j ds).length = ds.length
  | _, [] => rfl
  | j, d :: rest => by
    show (buildPosts env style i (j + 1) rest).length + 1 = rest.length + 1
    rw [buildPosts_length env style i (j + 1) rest]

/-! ## Claim C3: chunk failure aborts, earlier chunks persist -/

theorem runLoop_abort (env : GenEnv) (style : String) (n N : Nat)
    (hok : ∀ i, i < N → ChunkOk env i)
    (hfail : env.generateContent N = .error ()) :
    ∀ (fuel i : Nat) (db : DB) (reports : List Nat), i ≤ N → N < i + fuel →
      runLoop env style n fuel i db reports =
        .aborted (persistRange env style i (N - i) db)
          (reports ++
            (List.range (N - i)).map (fun m => progressAt (i + m + 1) n))
  | 0, i, _, _, hle, hlt => absurd hlt (by omega)
  | fuel + 1, i, db, reports, hle, hlt => by
    by_cases hiN : i = N
    · subst hiN
      rw [runLoop_step_error env style n fuel i db reports () hfail,
        Nat.sub_self]
      simp [persistRange]
    · have hiN' : i < N := by omega
      obtain ⟨resp, ds, hresp, hparse⟩ := hok i hiN'
      rw [runLoop_step_ok env style n fuel i db reports resp ds hresp hparse,
        runLoop_abort env style n N hok hfail fuel (i + 1) _ _
          (by omega) (by omega)]
      obtain ⟨m, hm⟩ : ∃ m, N - i = m + 1 := ⟨N - i - 1, by omega⟩
      have hm2 : N - (i + 1) = m := by omega
      rw [hm2, hm]
      have hchunk : runChunkPosts env style i = buildPosts env style i 0 ds := by
        simp [runChunkPosts, hresp, hparse]
      rw [show persistRange env style i (m + 1) db
            = persistRange env style (i + 1) m
                (bulkAddPosts db (runChunkPosts env style i)) from rfl,
        hchunk]
      congr 1
      rw [range_map_progress n i m, List.append_assoc, List.singleton_append]

theorem buildPosts_congr (env env2 : GenEnv) (style : String) (i : Nat)
    (hthumb : ∀ j, env.generateThumbnail i j = env2.generateThumbnail i j)
    (hrand : ∀ j, env.mathRandom i j = env2.mathRandom i j)
    (hclock : ∀ j, env.dateNow i j = env2.dateNow i j) :
    ∀ (j : Nat) (ds : List Draft),
      buildPosts env style i j ds = buildPosts env2 style i j ds
  | _, [] => rfl
  | j, d :: rest => by
    show draftToPost env style i j d :: buildPosts env style i (j + 1) rest
        = draftToPost env2 style i j d :: buildPosts env2 style i (j + 1) rest
    rw [buildPosts_congr env env2 style i hthumb hrand hclock (j + 1) rest]
    congr 1
    unfold draftToPost
    rw [hthumb j]
    cases hgt : env2.generateThumbnail i j with
    | ok tr => rw [hclock j]
    | error e => rw [hrand j, hclock j]

theorem persistRange_congr (env env2 : GenEnv) (style : String) :
    ∀ (k i : Nat) (db : DB),
      (∀ i2, i ≤ i2 → i2 < i + k →
        env.generateContent i2 = env2.generateContent i2 ∧
        ∀ j, env.generateThumbnail i2 j = env2.generateThumbnail i2 j ∧
          env.mathRandom i2 j = env2.mathRandom i2 j ∧
          env.dateNow i2 j = env2.dateNow i2 j) →
      persistRange env style i k db = persistRange env2 style i k db
  | 0, _, _, _ => rfl
  | k + 1, i, db, h => by
    show persistRange env style (i + 1) k
        (bulkAddPosts db (runChunkPosts env style i))
      = persistRange env2 style (i + 1) k
          (bulkAddPosts db (runChunkPosts env2 style i))
    have hi := h i (le_refl i) (by omega)
    have hchunk : runChunkPosts env style i = runChunkPosts env2 style i := by
      unfold runChunkPosts
      rw [hi.1]
      cases hgc : env2.generateContent i with
      | error e => rfl
      | ok resp =>
        show (match generatePostsBulk resp with
              | none => []
              | some ds => buildPosts env style i 0 ds)
            = (match generatePostsBulk resp with
              | none => []
              | some ds => buildPosts env2 style i 0 ds)
        cases hparse : generatePostsBulk resp with
        | none => rfl
        | some ds =>
          exact buildPosts_congr env env2 style i
            (fun j => (hi.2 j).1) (fun j => (hi.2 j).2.1)
            (fun j => (hi.2 j).2.2) 0 ds
    rw [hchunk]
    exact persistRange_congr env env2 style k (i + 1) _
      (fun i2 ha hb => h i2 (by omega) (by omega))

/-- C3: if the text-generation call for chunk `N` fails after chunks
`0..N-1` succeeded, the run ends in the single catch branch (exactly one
aggregate failure), the store holds exactly the posts of the `N` prior
chunks — written, never rolled back — and the behaviour of the run is a
function of the environment up to chunk `N` only: no later chunk is
attempted (any environment agreeing up to `N` produces the identical
outcome). -/
theorem c3_text_failure_aborts (env env2 : GenEnv) (topic style : String)
    (count N : Nat) (db0 : DB)
    (htopic : topic ≠ "") (hN : N < iterationsFor count)
    (hok : ∀ i, i < N → ChunkOk env i)
    (hfail : env.generateContent N = .error ())
    (hagree : AgreeUpTo env env2 N) :
    handleBulkGenerate env topic style count db0 =
      .aborted (persistRange env style 0 N db0)
        ((List.range N).map
          (fun m => progressAt (m + 1) (iterationsFor count))) ∧
    handleBulkGenerate env2 topic style count db0 =
      handleBulkGenerate env topic style count db0 := by
  have hmap :
      (List.range N).map (fun m => progressAt (0 + m + 1) (iterationsFor count))
        = (List.range N).map (fun m => progressAt (m + 1) (iterationsFor count)) := by
    apply List.map_congr_left
    intro m _
    congr 1
    omega
  have h1 : handleBulkGenerate env topic style count db0 =
      .aborted (persistRange env style 0 N db0)
        ((List.range N).map
          (fun m => progressAt (m + 1) (iterationsFor count))) := by
    rw [handleBulkGenerate, if_neg htopic,
      runLoop_abort env style (iterationsFor count) N hok hfail
        (iterationsFor count) 0 db0 [] (by omega) (by omega),
      Nat.sub_zero, List.nil_append, hmap]
  have hok2 : ∀ i, i < N → ChunkOk env2 i := by
    intro i hi
    obtain ⟨resp, ds, hresp, hparse⟩ := hok i hi
    exact ⟨resp, ds, (hagree.1 i (by omega)).symm.trans hresp, hparse⟩
  have hfail2 : env2.generateContent N = .error () :=
    (hagree.1 N (le_refl N)).symm.trans hfail
  have h2 : handleBulkGenerate env2 topic style count db0 =
      .aborted (persistRange env2 style 0 N db0)
        ((List.range N).map
          (fun m => progressAt (m + 1) (iterationsFor count))) := by
    rw [handleBulkGenerate, if_neg htopic,
      runLoop_abort env2 style (iterationsFor count) N hok2 hfail2
        (iterationsFor count) 0 db0 [] (by omega) (by omega),
      Nat.sub_zero, List.nil_append, hmap]
  have hpr : persistRange env style 0 N db0 = persistRange env2 style 0 N db0 :=
    persistRange_congr env env2 style N 0 db0
      (fun i2 _ hb => ⟨hagree.1 i2 (by omega), hagree.2 i2 (by omega)⟩)
  exact ⟨h1, by rw [h2, ← hpr, h1]⟩

/-- Witness for C3: `count = 10` (2 iterations), chunk 0 succeeds, the
chunk-1 text call fails; `envW3b` differs from `envW3` only beyond the
failure point and produces the identical outcome. -/
theorem c3_witness :
    handleBulkGenerate envW3 "ai" "ceo" 10 emptyDB =
      RunOutcome.aborted (persistRange envW3 "ceo" 0 1 emptyDB) [50] ∧
    handleBulkGenerate envW3b "ai" "ceo" 10 emptyDB =
      handleBulkGenerate envW3 "ai" "ceo" 10 emptyDB := by
  have hok : ∀ i, i < 1 → ChunkOk envW3 i := by
    intro i hi
    interval_cases i
    exact ⟨.objPosts [draftW], [draftW], rfl, rfl⟩
  have hagree : AgreeUpTo envW3 envW3b 1 := by
    constructor
    · intro i hi
      show envW3.generateContent i
        = if i ≤ 1 then envW3.generateContent i else .ok (.objPosts [])
      rw [if_pos hi]
    · intro i _ j
      exact ⟨rfl, rfl, rfl⟩
  obtain ⟨h1, h2⟩ := c3_text_failure_aborts envW3 envW3b "ai" "ceo" 10 1
    emptyDB (by decide) (by decide) hok rfl hagree
  refine ⟨?_, h2⟩
  rw [h1]
  rfl

/-! ## Claim C4: malformed structured output -/

/-- C4 counterexample: with `count = 6` (2 iterations), the chunk-0
response parses to an object without a `posts` array, and chunk 1 would
succeed with one draft. The claim says the orchestrator treats such a
chunk as an empty draft list and proceeds to the next iteration — but
the run hard-aborts with nothing persisted and no progress report, so
the chunk-1 draft is never generated or saved. -/
theorem c4_counterexample :
    handleBulkGenerate envC4 "ai" "ceo" 6 emptyDB =
      RunOutcome.aborted emptyDB [] ∧
    (handleBulkGenerate envC4 "ai" "ceo" 6 emptyDB).finalDb.posts.length = 0 ∧
    RunOutcome.isAborted (handleBulkGenerate envC4 "ai" "ceo" 6 emptyDB)
      = true := by
  refine ⟨?_, ?_, ?_⟩ <;> decide

/-- C4 amended: a response whose body is not valid JSON, or parses to
JSON `null`, is treated as an empty draft list for that chunk — nothing
is persisted for it and orchestration proceeds to the next iteration
with its progress report; but a response that parses to an object
without a `posts` array yields the JS `undefined` draft list, whose
`.length` access throws: the run aborts there as a hard error. -/
theorem c4_amended :
    generatePostsBulk .malformedJson = some [] ∧
    generatePostsBulk .jsonNull = some [] ∧
    (∀ (env : GenEnv) (style : String) (n fuel i : Nat) (db : DB)
        (reports : List Nat),
      env.generateContent i = .ok .malformedJson ∨
        env.generateContent i = .ok .jsonNull →
      runLoop env style n (fuel + 1) i db reports =
        runLoop env style n fuel (i + 1) db
          (reports ++ [progressAt (i + 1) n])) ∧
    (∀ (env : GenEnv) (style : String) (n fuel i : Nat) (db : DB)
        (reports : List Nat),
      env.generateContent i = .ok .objNoPosts →
      runLoop env style n (fuel + 1) i db reports = .aborted db reports) := by
  refine ⟨rfl, rfl, ?_, ?_⟩
  · intro env style n fuel i db reports h
    have hbulk : bulkAddPosts db (buildPosts env style i 0 []) = db := by
      simp [bulkAddPosts, buildPosts, assignPostIds]
    rcases h with h | h
    · rw [runLoop_step_ok env style n fuel i db reports _ [] h rfl, hbulk]
    · rw [runLoop_step_ok env style n fuel i db reports _ [] h rfl, hbulk]
  · intro env style n fuel i db reports h
    exact runLoop_step_undef env style n fuel i db reports _ h rfl

/-- Witness for the amended C4: a malformed chunk is skipped as empty
(while reporting progress), and an object-without-posts chunk aborts. -/
theorem c4_witness :
    runLoop envW4 "ceo" 2 2 0 emptyDB [] =
      runLoop envW4 "ceo" 2 1 1 emptyDB [50] ∧
    runLoop envC4 "ceo" 2 2 0 emptyDB [] = RunOutcome.aborted emptyDB [] :=
  ⟨(c4_amended.2.2.1) envW4 "ceo" 2 1 0 emptyDB [] (Or.inl rfl),
   (c4_amended.2.2.2) envC4 "ceo" 2 1 0 emptyDB [] rfl⟩

/-! ## Claim C5: thumbnail failure fallback -/

/-- C5 counterexample: two drafts in one chunk whose thumbnail calls both
fail are persisted with picsum fallback references seeded by fresh
`Math.random()` draws — the two stored references differ, so the
fallback reference is not the same value on every failure. -/
theorem c5_counterexample :
    ((handleBulkGenerate envC5 "ai" "ceo" 2 emptyDB).finalDb.posts.map
        Post.thumbnail_url)
      = ["https://picsum.photos/seed/0.12/800/450",
         "https://picsum.photos/seed/0.87/800/450"] ∧
    ((handleBulkGenerate envC5 "ai" "ceo" 2 emptyDB).finalDb.posts.map
        Post.thumbnail_prompt)
      = [some "", some ""] ∧
    ("https://picsum.photos/seed/0.12/800/450" : String)
      ≠ "https://picsum.photos/seed/0.87/800/450" := by
  refine ⟨?_, ?_, ?_⟩ <;> decide

/-- C5 amended: a draft whose image request fails is still persisted —
with an empty thumbnail prompt and a picsum fallback reference seeded by
a draft-specific `Math.random()` draw (so the reference is generally a
different value on each failure) — and the rest of the batch continues:
every draft of the chunk yields exactly one persisted post. -/
theorem c5_thumbnail_failure_nonfatal (env : GenEnv) (style : String)
    (i j : Nat) (d : Draft)
    (hfail : env.generateThumbnail i j = .error ()) :
    draftToPost env style i j d =
      { id := none, title := d.title, content := d.content,
        thumbnail_url :=
          "https://picsum.photos/seed/" ++ env.mathRandom i j ++ "/800/450",
        thumbnail_prompt := some "",
        style := style, virality_score := d.virality_score,
        created_at := env.dateNow i j - Int.ofNat (i * 5 + j) } ∧
    ∀ ds : List Draft, (buildPosts env style i j ds).length = ds.length := by
  constructor
  · unfold draftToPost
    rw [hfail]
  · intro ds
    exact buildPosts_length env style i j ds

/-- Witness for the amended C5 at a failing thumbnail call. -/
theorem c5_witness :
    draftToPost envC5 "ceo" 0 0 draftW =
      { id := none, title := "T", content := "C",
        thumbnail_url := "https://picsum.photos/seed/0.12/800/450",
        thumbnail_prompt := some "",
        style := "ceo", virality_score := 60, created_at := 1000 } := by
  have h := (c5_thumbnail_failure_nonfatal envC5 "ceo" 0 0 draftW rfl).1
  rw [h]
  decide

/-! ## Claim C6: created timestamps within a chunk -/

/-- C6 (code-bug evidence): with the clock advancing 2 ms between the two
drafts of one chunk — as it does across the awaited thumbnail calls —
the stored `created_at` values are `[1000, 1001]`, strictly increasing
in request order, so descending-time ordering reverses generation order.
The `- (i*5 + j)` offset (whose only purpose is the specified decreasing
stamping; see `created_at_decreasing_of_constant_clock`) is defeated by
re-reading `Date.now()` for every draft. -/
theorem c6_timestamps_increase :
    ((handleBulkGenerate envC6 "ai" "ceo" 2 emptyDB).finalDb.posts.map
        Post.created_at) = [1000, 1001] ∧
    ((1000 : Int) < 1001) := by
  refine ⟨?_, ?_⟩ <;> decide

/-! ## Claim C1: virality scores of persisted posts -/

/-- C1 counterexample: the bulk-generation path persists the
`virality_score` from the text service without any validation or clamping, so a
draft scored 150 is stored as 150, escaping `[0,100]`. -/
theorem c1_counterexample :
    ((handleBulkGenerate envC1 "ai" "ceo" 1 emptyDB).finalDb.posts.map
        Post.virality_score) = [150] ∧
    viralityOk (handleBulkGenerate envC1 "ai" "ceo" 1 emptyDB).finalDb
      = false := by
  refine ⟨?_, ?_⟩ <;> decide

theorem assignPostIds_all_scoreOk :
    ∀ (n : Nat) (ps : List Post),
      (assignPostIds n ps).all scoreOk = ps.all scoreOk
  | _, [] => rfl
  | n, p :: rest => by
    show (scoreOk { p with id := some n }
        && (assignPostIds (n + 1) rest).all scoreOk)
      = (scoreOk p && rest.all scoreOk)
    rw [assignPostIds_all_scoreOk (n + 1) rest]
    rfl

theorem viralityOk_bulkAdd (db : DB) (ps : List Post)
    (hdb : viralityOk db = true) (hps : ps.all scoreOk = true) :
    viralityOk (bulkAddPosts db ps) = true := by
  unfold viralityOk bulkAddPosts at *
  rw [List.all_append, hdb, assignPostIds_all_scoreOk db.nextPostId ps, hps]
  rfl

theorem viralityOk_delete (db : DB) (i : Nat)
    (h : viralityOk db = true) :
    viralityOk (tableDeletePost db i) = true := by
  unfold viralityOk tableDeletePost at *
  rw [List.all_eq_true] at h ⊢
  intro p hp
  exact h p (List.mem_of_mem_filter hp)

theorem viralityOk_update (db : DB) (i : Nat) (t c : String)
    (h : viralityOk db = true) :
    viralityOk (tableUpdatePost db i t c).1 = true := by
  unfold viralityOk tableUpdatePost at *
  rw [List.all_eq_true] at h ⊢
  intro p hp
  obtain ⟨q, hq, hqp⟩ := List.mem_map.mp hp
  have hsq := h q hq
  by_cases hqi : q.id = some i
  · rw [← hqp, if_pos hqi]
    exact hsq
  · rw [← hqp, if_neg hqi]
    exact hsq

theorem buildPosts_all_scoreOk (env : GenEnv) (style : String) (i : Nat) :
    ∀ (j : Nat) (ds : List Draft),
      (∀ d ∈ ds, 0 ≤ d.virality_score ∧ d.virality_score ≤ 100) →
      (buildPosts env style i j ds).all scoreOk = true
  | _, [], _ => rfl
  | j, d :: rest, h => by
    show (scoreOk (draftToPost env style i j d)
        && (buildPosts env style i (j + 1) rest).all scoreOk) = true
    rw [buildPosts_all_scoreOk env style i (j + 1) rest
      (fun d2 hd2 => h d2 (List.mem_cons_of_mem d hd2))]
    have hd := h d (List.mem_cons_self d rest)
    simp [scoreOk, draftToPost_virality, hd.1, hd.2]

theorem runLoop_viralityOk (env : GenEnv) (style : String) (n : Nat)
    (henv : draftsInRange env) :
    ∀ (fuel i : Nat) (db : DB) (reports : List Nat),
      viralityOk db = true →
      viralityOk (runLoop env style n fuel i db reports).finalDb = true
  | 0, _, _, _, hdb => hdb
  | fuel + 1, i, db, reports, hdb => by
    cases hresp : env.generateContent i with
    | error e =>
      rw [runLoop_step_error env style n fuel i db reports e hresp]
      exact hdb
    | ok resp =>
      cases hparse : generatePostsBulk resp with
      | none =>
        rw [runLoop_step_undef env style n fuel i db reports resp hresp hparse]
        exact hdb
      | some ds =>
        rw [runLoop_step_ok env style n fuel i db reports resp ds hresp hparse]
        apply runLoop_viralityOk env style n henv fuel (i + 1)
        apply viralityOk_bulkAdd _ _ hdb
        apply buildPosts_all_scoreOk
        intro d hd
        cases resp with
        | malformedJson =>
          injection hparse with hds
          subst hds
          exact absurd hd (List.not_mem_nil d)
        | jsonNull =>
          injection hparse with hds
          subst hds
          exact absurd hd (List.not_mem_nil d)
        | objNoPosts => simp [generatePostsBulk] at hparse
        | objPosts ds2 =>
          injection hparse with hds
          subst hds
          exact henv i ds2 hresp d hd

/-- C1 amended: seeding only writes scores 95 and 92; edit and delete
preserve the `[0,100]` invariant (neither touches `virality_score`); and
bulk generation preserves it exactly when every draft the text service
returns is scored inside `[0,100]` — the orchestrator stores the
service score unvalidated. -/
theorem c1_virality_range :
    (∀ (db : DB) (now : Int),
      viralityOk db = true → viralityOk (seedIfEmpty db now) = true) ∧
    (∀ (db : DB) (confirmDelete : Bool) (id : Option Nat) (db2 : DB),
      handleDelete db confirmDelete id = .resolved db2 →
      viralityOk db = true → viralityOk db2 = true) ∧
    (∀ (db : DB) (id : Nat) (t c : String) (db2 : DB) (cnt : Nat),
      handleSaveEdit db id t c = .resolved (db2, cnt) →
      viralityOk db = true → viralityOk db2 = true) ∧
    (∀ (env : GenEnv) (topic style : String) (count : Nat) (db : DB),
      draftsInRange env → viralityOk db = true →
      viralityOk (handleBulkGenerate env topic style count db).finalDb
        = true) := by
  refine ⟨?_, ?_, ?_, ?_⟩
  · intro db now hdb
    unfold seedIfEmpty
    split
    · exact viralityOk_bulkAdd db (seedPosts now) hdb rfl
    · exact hdb
  · intro db confirmDelete id db2 hres hdb
    cases id with
    | none =>
      rw [show handleDelete db confirmDelete none = .resolved db from rfl]
        at hres
      injection hres with h
      subst h
      exact hdb
    | some i =>
      rw [show handleDelete db confirmDelete (some i)
            = (if i = 0 then DbOutcome.resolved db
               else if confirmDelete then
                 DbOutcome.resolved (tableDeletePost db i)
               else DbOutcome.resolved db) from rfl] at hres
      split at hres
      · injection hres with h
        subst h
        exact hdb
      · split at hres
        · injection hres with h
          subst h
          exact viralityOk_delete db i hdb
        · injection hres with h
          subst h
          exact hdb
  · intro db id t c db2 cnt hres hdb
    unfold handleSaveEdit at hres
    split at hres
    · injection hres with h
      have h1 : db = db2 := congrArg Prod.fst h
      exact h1 ▸ hdb
    · injection hres with h
      have h1 : (tableUpdatePost db id t c).1 = db2 := congrArg Prod.fst h
      exact h1 ▸ viralityOk_update db id t c hdb
  · intro env topic style count db henv hdb
    unfold handleBulkGenerate
    split
    · exact hdb
    · exact runLoop_viralityOk env style (iterationsFor count) henv
        (iterationsFor count) 0 db [] hdb

/-- Witness for the amended C1: seeding an empty store and a bulk run
whose service drafts are scored inside `[0,100]` both leave every
persisted score in `[0,100]`. -/
theorem c1_witness :
    viralityOk (seedIfEmpty emptyDB 5000) = true ∧
    viralityOk (handleBulkGenerate envW1 "ai" "ceo" 1 emptyDB).finalDb
      = true := by
  constructor
  · exact c1_virality_range.1 emptyDB 5000 rfl
  · refine (c1_virality_range.2.2.2) envW1 "ai" "ceo" 1 emptyDB ?_ rfl
    intro i ds h d hd
    have hds : [draftW] = ds := by
      have h2 : (Except.ok (TextResp.objPosts [draftW]) : Except Unit TextResp)
          = .ok (.objPosts ds) := h
      simpa using h2
    rw [← hds] at hd
    have hdd : d = draftW := by simpa using hd
    subst hdd
    exact ⟨by decide, by decide⟩

end PostBank
